import Mathlib

set_option maxRecDepth 4000

/-!
Verification of the LangGraph PDF-question-answering agent.

This file shallowly embeds the Python sources:
  - `Agentic_Research_Exploration/tools.py`   (`extract_pdf_text`, `chunk_text`)
  - `Agentic_Research_Exploration/user_manager.py` (`register_user`, validators, schema)
  - `Agentic_Research_Evaluator/graph.py`     (the research/evaluator control-loop graph)

Python string operations are modelled character-exactly on `List Char`
(`rfind`, slicing with negative indices, `strip`, `lower`, `startswith`,
substring containment), integer indices as `Int` where Python values can be
negative (`rfind` returns -1).  The two LLMs, the tool executor and the
filesystem are oracles passed in as parameters; every call to an oracle is
recorded in a call log so that "performs no model call" style properties are
statable.  Loops are given explicit fuel; `none` means the source diverges.
-/

/-! ## Python string primitives -/

/-- Adjust a (possibly negative) Python slice / `rfind` boundary index to the
actual `Nat` index, exactly as CPython does: negative indices count from the
end (clamped to 0), nonnegative ones are clamped to the length. -/
def pyAdjust (len : Nat) (i : Int) : Nat :=
  if i < 0 then ((len : Int) + i).toNat else min i.toNat len

/-- Python `text[a:b]` character slicing (supports negative indices). -/
def pySlice (l : List Char) (a b : Int) : List Char :=
  (l.take (pyAdjust l.length b)).drop (pyAdjust l.length a)

/-- Python `text.rfind(' ', a, b)`: the largest index `i` in the adjusted
range `[a, b)` with `l[i] = ' '`, and `-1` when there is none. -/
def pyRfindSpace (l : List Char) (a b : Int) : Int :=
  let lo := pyAdjust l.length a
  let hi := pyAdjust l.length b
  match ((List.range hi).filter fun i => decide (lo ≤ i) && (l.getD i '?' == ' ')).getLast? with
  | some i => (i : Int)
  | none => -1

/-- Python `str.strip()` on a character list. -/
def pyStripChars (l : List Char) : List Char :=
  ((l.dropWhile Char.isWhitespace).reverse.dropWhile Char.isWhitespace).reverse

/-- Python `str.strip()`. -/
def pyStrip (s : String) : String :=
  String.mk (pyStripChars s.toList)

/-- Python `str.lower()` (ASCII case folding, as used on the inputs here). -/
def pyLower (s : String) : String :=
  String.mk (s.toList.map Char.toLower)

/-- Python `p in s` substring containment test. -/
def strContains (s pat : String) : Bool :=
  (List.range (s.toList.length + 1)).any fun i => pat.toList.isPrefixOf (s.toList.drop i)

/-- Python `s.startswith(p)`. -/
def pyStartsWith (s pat : String) : Bool :=
  pat.toList.isPrefixOf s.toList

/-! ## `tools.py`: `chunk_text`

```python
def chunk_text(text, chunk_size=MAX_CHUNK_SIZE, overlap=OVERLAP_SIZE):
    if len(text) <= chunk_size:
        return [text]
    chunks = []
    start = 0
    while start < len(text):
        end = start + chunk_size
        if end < len(text):
            end = text.rfind(' ', start, end) or end
        chunk = text[start:end].strip()
        if chunk:
            chunks.append(chunk)
        start = end - overlap
    return chunks
```

Note `x or end` keeps `x` unless `x == 0` (so a `rfind` miss, which returns
`-1`, is NOT replaced by the raw boundary).  The while loop is embedded with
fuel; `none` models divergence of the source loop. -/

/-- `config.py`: `MAX_CHUNK_SIZE = 12000`. -/
def MAX_CHUNK_SIZE : Int := 12000

/-- `config.py`: `OVERLAP_SIZE = 200`. -/
def OVERLAP_SIZE : Int := 200

/-- One loop iteration's window end: `end = start + chunk_size`, then
`end = text.rfind(' ', start, end) or end` when `end < len(text)`. -/
def computeEnd (l : List Char) (cs start : Int) : Int :=
  let e0 := start + cs
  if e0 < (l.length : Int) then
    let r := pyRfindSpace l start e0
    if r = 0 then e0 else r
  else e0

/-- The `while start < len(text)` loop of `chunk_text`, with fuel. -/
def chunkLoop (l : List Char) (cs ov : Int) : Nat → Int → List (List Char) → Option (List (List Char))
  | 0, _, _ => none
  | fuel+1, start, acc =>
    if start < (l.length : Int) then
      let e := computeEnd l cs start
      let chunk := pyStripChars (pySlice l start e)
      let acc' := if chunk.isEmpty then acc else acc ++ [chunk]
      chunkLoop l cs ov fuel (e - ov) acc'
    else some acc

/-- `chunk_text` from `tools.py`.  `none` = the source loop diverges within
`fuel` iterations (any terminating source run takes at most
`len(text) + overlap + 3` iterations, since the window start strictly
changes between iterations of a terminating run and is confined to
`[-1 - overlap, len(text))` until the final iteration). -/
def chunk_text (fuel : Nat) (text : String) (cs ov : Int) : Option (List String) :=
  if (text.length : Int) ≤ cs then some [text]
  else (chunkLoop text.toList cs ov fuel 0 []).map (List.map String.mk)

/-! ### C1: the loop does not always make forward progress -/

/-- A text on which the `chunk_text` loop gets stuck: with
`chunk_size = 5 > 2 = overlap`, from `start = 2` the window is `[2, 7)`,
`rfind(' ', 2, 7) = 4` (the single space), so `end = 4`,
and `start` becomes `4 - 2 = 2` again, forever. -/
def c1text : String := "abcd efghijkl"

/-! ### C4: window instrumentation for the coverage property -/

/-- The same loop as `chunkLoop`, but recording the raw `(start, end)` window
of every iteration instead of the stripped chunk contents. -/
def chunkLoopW (l : List Char) (cs ov : Int) : Nat → Int → Option (List (Int × Int))
  | 0, _ => none
  | fuel+1, start =>
    if start < (l.length : Int) then
      (chunkLoopW l cs ov fuel (computeEnd l cs start - ov)).map
        (fun ws => (start, computeEnd l cs start) :: ws)
    else some []

/-- The chunks produced from a window list: each window's slice of the text,
`strip`ped, with empty results discarded (the `if chunk:` guard). -/
def chunksOfWindows (l : List Char) (ws : List (Int × Int)) : List (List Char) :=
  (ws.map fun w => pyStripChars (pySlice l w.1 w.2)).filter fun c => !c.isEmpty

/-- The input refuting C4: `"aaa  bbbbb"` (10 chars, two consecutive spaces)
with `chunk_size = 8`, `overlap = 1`. -/
def c4text : String := "aaa  bbbbb"

/-! ## `user_manager.py`: registration

The sqlite table (`init_db`) is
```sql
CREATE TABLE IF NOT EXISTS users (
    session_id TEXT PRIMARY KEY,
    name TEXT NOT NULL,
    email TEXT NOT NULL UNIQUE,
    registered_at TIMESTAMP DEFAULT CURRENT_TIMESTAMP,
    is_active BOOLEAN DEFAULT 1
)
```
modelled as a list of records; an `INSERT` raises `IntegrityError` exactly
when the primary key (`session_id`) or the `UNIQUE` column (`email`)
collides with an existing row.  `CURRENT_TIMESTAMP` is the `now` parameter. -/

structure UserRec where
  session_id : String
  name : String
  email : String
  registered_at : Nat
  is_active : Bool
deriving Repr, DecidableEq

/-- Character class `[a-zA-Z0-9._%+-]` of the email regex. -/
def emailAtomChar (c : Char) : Bool :=
  c.isAlphanum || c == '.' || c == '_' || c == '%' || c == '+' || c == '-'

/-- Character class `[a-zA-Z0-9.-]` of the email regex. -/
def emailDomChar (c : Char) : Bool :=
  c.isAlphanum || c == '.' || c == '-'

/-- `validate_email`: `re.match(r'^[a-zA-Z0-9._%+-]+@[a-zA-Z0-9.-]+\.[a-zA-Z]{2,}$', email)`,
decided by searching for the positions of the `@` and of the dot that
separates the domain from the final alphabetic run. -/
def validate_email (email : String) : Bool :=
  let l := email.toList
  (List.range l.length).any fun i =>
    (List.range l.length).any fun j =>
      decide (i < j) && (l.getD i '?' == '@') && (l.getD j '?' == '.') &&
      !(l.take i).isEmpty && (l.take i).all emailAtomChar &&
      !((l.drop (i+1)).take (j - (i+1))).isEmpty &&
      ((l.drop (i+1)).take (j - (i+1))).all emailDomChar &&
      decide (2 ≤ (l.drop (j+1)).length) && (l.drop (j+1)).all Char.isAlpha

/-- `validate_name`: `len(name.strip()) >= 2 and len(name.strip()) <= 100`. -/
def validate_name (name : String) : Bool :=
  decide (2 ≤ (pyStrip name).length) && decide ((pyStrip name).length ≤ 100)

/-- `SELECT session_id FROM users WHERE email = ?` (first matching row). -/
def findByEmail (db : List UserRec) (email : String) : Option UserRec :=
  db.find? fun r => r.email == email

/-- `register_user(session_id, name, email)` from `user_manager.py`,
returning the new table contents together with the `(success, message)`
pair the Python function returns. -/
def register_user (db : List UserRec) (now : Nat) (session_id name email : String) :
    List UserRec × Bool × String :=
  let name := pyStrip name
  let email := pyLower (pyStrip email)
  if !(validate_name name) then
    (db, false, "Name must be between 2 and 100 characters.")
  else if !(validate_email email) then
    (db, false, "Please enter a valid email address.")
  else
    match findByEmail db email with
    | some existing =>
      if existing.session_id == session_id then
        (db.map fun u =>
          if u.session_id == session_id then
            { u with name := name, registered_at := now }
          else u,
         true, "User information updated successfully.")
      else
        (db, false, "This email is already registered with another session.")
    | none =>
      if db.any fun r => r.session_id == session_id || r.email == email then
        (db, false, "This email is already registered.")
      else
        (db ++ [⟨session_id, name, email, now, true⟩], true, "User registered successfully.")

/-- Well-formedness of the stored table: every stored email passes
validation (it got there through a successful `register_user`), and the
schema's `PRIMARY KEY` / `UNIQUE` constraints hold. -/
def DBWF (db : List UserRec) : Prop :=
  (∀ r ∈ db, validate_email r.email = true) ∧
  db.Pairwise fun a b => a.session_id ≠ b.session_id ∧ a.email ≠ b.email

/-- A one-row table: session `"s1"` registered as Alice with `a@b.co`. -/
def c7db : List UserRec := [⟨"s1", "Alice", "a@b.co", 0, true⟩]

/-! ## `graph.py`: the research/evaluator control loop

The graph built by `build_graph` has nodes `researcher` (= `research_node`),
`tools` (= a vendor `ToolNode` that executes the requested tool and appends
its output as a tool message), `evaluator` (= `evaluator_node`), with

  - `START → researcher`
  - `researcher → tools | evaluator` via `research_router`
  - `tools → researcher` (unconditional edge)
  - `evaluator → researcher | END` via `evaluation_router`.

The two LLMs and the tool executor are oracles; because an LLM is free to
answer the same prompt differently across calls, each oracle additionally
receives the index of the call (how many calls of that kind happened
before).  Every model invocation is recorded in a `Call` log. -/

inductive Role
  | human
  | assistant
  | tool
deriving Repr, DecidableEq

/-- A message in the langgraph state.  `hasToolCalls` models whether the
message is an `AIMessage` whose `tool_calls` list is nonempty (dict-shaped
messages appended by the nodes become `AIMessage`s with no tool calls). -/
structure Msg where
  role : Role
  content : String
  hasToolCalls : Bool
deriving Repr, DecidableEq

/-- The `State` TypedDict of `graph.py`.  `messages` uses the
`add_messages` reducer (append); the other fields overwrite.
`feedback_on_work = none` models Python `None`. -/
structure GState where
  messages : List Msg
  pdf_content : String
  question : String
  user_registered : Bool
  success_criteria : String
  feedback_on_work : Option String
  success_criteria_met : Bool
  user_input_needed : Bool
deriving Repr, DecidableEq

/-- The structured output schema of the evaluator LLM. -/
structure EvaluatorOutput where
  feedback : String
  success_criteria_met : Bool
  user_input_needed : Bool
deriving Repr, DecidableEq

/-- What the research LLM returns for a prompt. -/
structure ResearchReply where
  content : String
  hasToolCalls : Bool
deriving Repr, DecidableEq

/-- One recorded external model invocation. -/
inductive Call
  | research (prompt : String)
  | evaluator (prompt : String)
deriving Repr, DecidableEq

/-- The external nondeterministic world: the research LLM, the tool
executor, and the evaluator LLM, each fed the index of the call. -/
structure Oracles where
  research : Nat → String → ResearchReply
  toolExec : Nat → Msg → String
  evaluator : Nat → String → EvaluatorOutput

def defaultMsg : Msg := ⟨Role.assistant, "", false⟩

/-- `state["messages"][-1]`. -/
def lastMsg (s : GState) : Msg := s.messages.getLastD defaultMsg

/-- The fixed registration warning of `research_node`. -/
def registerWarning : String :=
  "⚠️ Please register first using the registration form in the sidebar before accessing the chatbot."

/-- The fixed no-document message of `research_node`. -/
def extractPdfFirst : String :=
  "Please extract a PDF first using the extract_pdf_text tool."

/-- The default success criteria `process_question` seeds the state with. -/
def defaultSuccessCriteria : String :=
  "Response must be accurate, based solely on PDF content, directly answer the question, and contain no hallucinations"

/-- The tag `evaluator_node` prepends to its feedback message. -/
def evalTagSp : String := "🔍 Evaluation: "

/-- The tag `process_question` tests with `startswith`. -/
def evalTag : String := "🔍 Evaluation:"

/-- Literal fragment of `feedback_context` before the feedback text. -/
def fcPre : String := "\n\n        PREVIOUS EVALUATION FEEDBACK: "

/-- Literal fragment of `feedback_context` after the feedback text. -/
def fcPost : String :=
  "\n        Please address this feedback and ensure your response meets the success criteria."

/-- The `feedback_context` fragment of `research_node`: empty unless
`state.get("feedback_on_work")` is truthy (present and nonempty). -/
def feedback_context (s : GState) : String :=
  match s.feedback_on_work with
  | none => ""
  | some f => if f = "" then "" else fcPre ++ f ++ fcPost

/-- Literal fragments of the `system_prompt` f-string of the small-document
branch of `research_node`, in order of appearance. -/
def fp1 : String :=
  "You are a research assistant analyzing a scientific paper.\n\n            SUCCESS CRITERIA: "

def fp2 : String := "\n\n            Full Paper Content:\n            "

def fp3 : String := "\n\n            Question: "

def fp4 : String :=
  "\n\n            IMPORTANT: Your response must be based SOLELY on the provided PDF content above.\n            Do not include any information, assumptions, or knowledge not present in this specific paper.\n            If the paper doesn\x27t contain information to answer the question, clearly state this limitation.\n            "

/-- The `system_prompt` f-string of the small-document branch of
`research_node` (the whole document fits in one chunk). -/
def fullPrompt (s : GState) : String :=
  fp1 ++ s.success_criteria ++ feedback_context s
  ++ fp2 ++ s.pdf_content ++ fp3 ++ s.question ++ fp4

/-- Literal fragments of the `summary_prompt` f-string of the
large-document branch of `research_node`, in order of appearance. -/
def cp1 : String :=
  "You are analyzing a research paper. Here are the first few chunks:\n\n            "

def cp2 : String := "\n            "

def cp3 : String := "\n\n            SUCCESS CRITERIA: "

def cp4 : String := "\n\n            Question: "

def cp5 : String :=
  "\n\n            Based on this overview, provide a comprehensive answer. If you need more specific sections, mention which parts would be most relevant.\n            IMPORTANT: Base your response only on the provided paper content - no external knowledge or assumptions.\n            "

/-- The `summary_prompt` f-string of the large-document branch of
`research_node` (`c0 = chunks[0]`, `c1 = chunks[1] if len(chunks) > 1 else ""`). -/
def chunkedPrompt (s : GState) (c0 c1 : String) : String :=
  cp1 ++ c0 ++ cp2 ++ c1 ++ cp3 ++ s.success_criteria ++ feedback_context s
  ++ cp4 ++ s.question ++ cp5

/-- What `research_node` does before any state change: emit a fixed warning
message, or submit a prompt to the research model, or hang in `chunk_text`. -/
inductive ResearchAction
  | warnRegister
  | warnNoPdf
  | callModel (prompt : String)
  | chunkDiverge
deriving Repr, DecidableEq

/-- The decision `research_node` makes before touching the model:
short-circuit on registration, then on a missing document, then pick the
full-document or the chunked prompt.  `chunkDiverge` marks the (real)
possibility that its call to `chunk_text` never returns; the fuel
`len + 203` covers every terminating run of the chunk loop (the start is
confined to `[-1 - overlap, len)` before the final iteration and never
repeats in a terminating run).  `chunks[0]` / `chunks[1]` are modelled with
a `""` default (Python would raise on an empty chunk list).  The Python
`state.get(..., default)` defaults for `question` / `success_criteria` are
irrelevant here because `process_question` always seeds those keys, so the
fields are modelled as always present. -/
def research_node (s : GState) : ResearchAction :=
  if !s.user_registered then .warnRegister
  else if s.pdf_content = "" then .warnNoPdf
  else if (s.pdf_content.length : Int) ≤ MAX_CHUNK_SIZE then
    .callModel (fullPrompt s)
  else
    match chunk_text (s.pdf_content.length + 203) s.pdf_content MAX_CHUNK_SIZE OVERLAP_SIZE with
    | none => .chunkDiverge
    | some cks =>
      .callModel (chunkedPrompt s (cks.getD 0 "") (if cks.length > 1 then cks.getD 1 "" else ""))

/-- `pdf_sample = pdf_content[:3000] + "..." if len(pdf_content) > 3000 else pdf_content`. -/
def pdfSample (s : GState) : String :=
  if 3000 < s.pdf_content.length then String.mk (s.pdf_content.toList.take 3000) ++ "..."
  else s.pdf_content

/-- The `system_message` constant of `evaluator_node`. -/
def evalSystemMessage : String :=
  "You are an evaluator that determines if a research analysis response is accurate and properly grounded in the PDF content.\n\n        Evaluate for:\n        1. ACCURACY: Information matches what\x27s actually in the PDF\n        2. GROUNDING: No hallucinated information not present in the source\n        3. RELEVANCE: Response directly answers the question asked\n        4. COMPLETENESS: Addresses the question adequately based on available content\n        5. LIMITATIONS: Clearly states if paper lacks information to fully answer\n\n        Be strict: if the response contains any information not explicitly stated in the PDF, mark as not meeting criteria."

/-- The `user_message` `evaluator_node` submits to the evaluator model
(`last_response = state["messages"][-1].content`), with the
`PREVIOUS FEEDBACK` suffix appended when feedback is truthy. -/
def evalUserMessage (s : GState) : String :=
  let base := "Evaluate this research analysis response:\n\n        QUESTION ASKED: " ++ s.question
    ++ "\n\n        SUCCESS CRITERIA: " ++ s.success_criteria
    ++ "\n\n        PDF CONTENT SAMPLE: " ++ pdfSample s
    ++ "\n\n        ASSISTANT RESPONSE TO EVALUATE: " ++ (lastMsg s).content
    ++ "\n\n        Analyze whether this response meets the success criteria. Check specifically:\n        - Is all information present in the PDF content sample?\n        - Does it directly answer the question?\n        - Are there any hallucinations or external assumptions?\n        - Does it acknowledge limitations if the paper lacks relevant information?"
  match s.feedback_on_work with
  | none => base
  | some f =>
    if f = "" then base
    else base ++ "\n\nPREVIOUS FEEDBACK: " ++ f
      ++ "\nAddress whether this feedback has been adequately resolved."

/-- The state update `evaluator_node` returns, given the structured output
of the evaluator model: the tagged feedback message is appended and the
three evaluator fields are overwritten. -/
def evaluatorApply (out : EvaluatorOutput) (s : GState) : GState :=
  { s with
    messages := s.messages ++ [⟨Role.assistant, evalTagSp ++ out.feedback, false⟩],
    feedback_on_work := some out.feedback,
    success_criteria_met := out.success_criteria_met,
    user_input_needed := out.user_input_needed }

/-- langgraph's `END` sentinel. -/
def ENDnode : String := "__end__"

/-- `research_router`: `"tools"` iff the last message carries tool calls. -/
def research_router (s : GState) : String :=
  if (lastMsg s).hasToolCalls then "tools" else "evaluator"

/-- `evaluation_router`: `END` iff the met-flag or the needs-input-flag is
set, else back to the researcher. -/
def evaluation_router (s : GState) : String :=
  if s.success_criteria_met || s.user_input_needed then ENDnode else "researcher"

/-- Result of `tool_handler` (a partial state update in the source). -/
inductive ToolHandlerResult
  | setPdf (content : String)
  | noChange
deriving Repr, DecidableEq

/-- `tool_handler` from `graph.py`: overwrite `pdf_content` with the last
message's content iff that content is truthy and does not contain the
literal substring `"pdf_content"` once lowercased.  NOTE: `build_graph`
never registers this function as a graph node — the `tools` node is the
vendor `ToolNode` — so this logic is dead code in the source. -/
def tool_handler (s : GState) : ToolHandlerResult :=
  if (lastMsg s).content != "" && !(strContains (pyLower (lastMsg s).content) "pdf_content") then
    .setPdf (lastMsg s).content
  else .noChange

/-- The graph's nodes. -/
inductive Node
  | researcher
  | tools
  | evaluator
deriving Repr, DecidableEq

/-- One traversal of the compiled graph, from a given node, with fuel
(`none` = the run does not finish within `fuel` node visits, or hangs
inside `chunk_text`).  Returns the final state and the log of model calls.
The counters `rc`, `tc`, `ec` index the research / tool / evaluator oracle
invocations.  The routing literally consults `research_router` /
`evaluation_router` and the conditional-edge maps of `build_graph`. -/
def runGraphAux (o : Oracles) :
    Nat → Node → GState → Nat → Nat → Nat → Option (GState × List Call)
  | 0, _, _, _, _, _ => none
  | fuel+1, Node.researcher, s, rc, tc, ec =>
    match research_node s with
    | .warnRegister =>
      let s' := { s with messages := s.messages ++ [⟨Role.assistant, registerWarning, false⟩] }
      if research_router s' = "tools" then runGraphAux o fuel Node.tools s' rc tc ec
      else runGraphAux o fuel Node.evaluator s' rc tc ec
    | .warnNoPdf =>
      let s' := { s with messages := s.messages ++ [⟨Role.assistant, extractPdfFirst, false⟩] }
      if research_router s' = "tools" then runGraphAux o fuel Node.tools s' rc tc ec
      else runGraphAux o fuel Node.evaluator s' rc tc ec
    | .callModel p =>
      let reply := o.research rc p
      let s' := { s with messages := s.messages ++ [⟨Role.assistant, reply.content, reply.hasToolCalls⟩] }
      (if research_router s' = "tools" then runGraphAux o fuel Node.tools s' (rc+1) tc ec
       else runGraphAux o fuel Node.evaluator s' (rc+1) tc ec).map
        fun r => (r.1, Call.research p :: r.2)
    | .chunkDiverge => none
  | fuel+1, Node.tools, s, rc, tc, ec =>
    let s' := { s with messages := s.messages ++ [⟨Role.tool, o.toolExec tc (lastMsg s), false⟩] }
    runGraphAux o fuel Node.researcher s' rc (tc+1) ec
  | fuel+1, Node.evaluator, s, rc, tc, ec =>
    let out := o.evaluator ec (evalUserMessage s)
    let s' := evaluatorApply out s
    if evaluation_router s' = ENDnode then some (s', [Call.evaluator (evalUserMessage s)])
    else (runGraphAux o fuel Node.researcher s' rc tc (ec+1)).map
      fun r => (r.1, Call.evaluator (evalUserMessage s) :: r.2)

/-- A full run of the compiled graph from `START` (edge `START → researcher`). -/
def runGraph (o : Oracles) (fuel : Nat) (s : GState) : Option (GState × List Call) :=
  runGraphAux o fuel Node.researcher s 0 0 0

/-- Number of research-model invocations in a call log. -/
def isResearchCall : Call → Bool
  | Call.research _ => true
  | Call.evaluator _ => false

def isEvalCall : Call → Bool
  | Call.research _ => false
  | Call.evaluator _ => true

def countResearch (cs : List Call) : Nat :=
  (cs.filter isResearchCall).length

/-- Number of evaluator-model invocations in a call log. -/
def countEval (cs : List Call) : Nat :=
  (cs.filter isEvalCall).length

/-! ## `extract_pdf_text` and `process_question` -/

/-- What the filesystem/PyPDF2 layer does for a path: the file is missing
(`os.path.exists` fails), opening/parsing raises (with exception text
`err`), or extraction succeeds with the concatenated page text. -/
inductive FileRes
  | missing
  | unreadable (err : String)
  | ok (text : String)

/-- `extract_pdf_text` from `tools.py`: in-band error strings, never an
exception.  Note the two error shapes differ: `"Error: File ... not found"`
contains `"Error:"`, `"Error extracting PDF: ..."` does not. -/
def extract_pdf_text (fs : String → FileRes) (file_path : String) : String :=
  match fs file_path with
  | .missing => "Error: File " ++ file_path ++ " not found"
  | .unreadable e => "Error extracting PDF: " ++ e
  | .ok t => t

/-- The initial state `process_question` seeds the graph with. -/
def initialState (pdf_content question pdf_path : String) (user_registered : Bool) : GState :=
  { messages := [⟨Role.human, "Analyze PDF: " ++ pdf_path, false⟩],
    pdf_content := pdf_content,
    question := question,
    user_registered := user_registered,
    success_criteria := defaultSuccessCriteria,
    feedback_on_work := none,
    success_criteria_met := false,
    user_input_needed := false }

/-- The selection test of the result loop of `process_question`:
`isinstance(msg, AIMessage) and msg.content and not msg.content.startswith("🔍 Evaluation:")`. -/
def isSubstantive (m : Msg) : Bool :=
  m.role == Role.assistant && m.content != "" && !(pyStartsWith m.content evalTag)

/-- `for msg in reversed(final_messages): ...` — the first match, scanning
a (already reversed) list. -/
def findAnswer : List Msg → Option String
  | [] => none
  | m :: rest => if isSubstantive m then some m.content else findAnswer rest

/-- The externally visible result `process_question` extracts from the final
state: the last substantive assistant message, with
`result["messages"][-1].content` as the fallback. -/
def finalAnswer (msgs : List Msg) : String :=
  match findAnswer msgs.reverse with
  | some c => c
  | none => (msgs.getLastD defaultMsg).content

/-- `process_question` from `graph.py`, instrumented with the model-call
log.  The `thread_id` argument only selects the checkpoint slot and does
not affect a single run, so it is omitted.  `none` = the graph run does
not terminate within `fuel`. -/
def process_question_trace (fs : String → FileRes) (o : Oracles) (fuel : Nat)
    (pdf_path question : String) (user_registered : Bool) :
    Option (String × List Call) :=
  let pdf_content := extract_pdf_text fs pdf_path
  if strContains pdf_content "Error:" then some (pdf_content, [])
  else (runGraph o fuel (initialState pdf_content question pdf_path user_registered)).map
    fun r => (finalAnswer r.1.messages, r.2)

/-- `process_question`'s return value (the call log projected away). -/
def process_question (fs : String → FileRes) (o : Oracles) (fuel : Nat)
    (pdf_path question : String) (user_registered : Bool) : Option String :=
  (process_question_trace fs o fuel pdf_path question user_registered).map Prod.fst

/-! ### C2: an unregistered session never reaches the research model,
but the evaluator model still runs on the warning -/

/-- The message `research_node` emits for an unregistered session. -/
def warnMsg : Msg := ⟨Role.assistant, registerWarning, false⟩

/-- The annotation message `evaluator_node` emits for feedback `fb`. -/
def annMsg (fb : String) : Msg := ⟨Role.assistant, evalTagSp ++ fb, false⟩

/-! ### Concrete scenario runs (C2, C6) -/

/-- The document text of the spec's end-to-end scenario. -/
def scenarioPdf : String := "Paper about X. Results: 42%."

/-- The question of the spec's end-to-end scenario. -/
def scenarioQuestion : String := "What is the result?"

/-- A filesystem on which every path extracts to the scenario document. -/
def fsScenario : String → FileRes := fun _ => FileRes.ok scenarioPdf

/-- Oracles whose evaluator immediately accepts with feedback `"ok"` (the
research model is irrelevant for an unregistered run). -/
def oAccept : Oracles :=
  { research := fun _ _ => ⟨"unused", false⟩,
    toolExec := fun _ _ => "unused",
    evaluator := fun _ _ => ⟨"ok", true, false⟩ }

/-- The concrete result of the unregistered scenario run. -/
def c2res : GState × List Call :=
  (runGraph oAccept 5 (initialState scenarioPdf scenarioQuestion "paper.pdf" false)).getD
    (initialState "" "" "" false, [])

/-! ### C6: the externally visible result -/

/-- Oracles for a single clean pass: the research model answers `ans`
without tool calls, and the evaluator accepts on the first pass
(met-flag true) with feedback `fb`. -/
def oFirstPass (ans fb : String) : Oracles :=
  { research := fun _ _ => ⟨ans, false⟩,
    toolExec := fun _ _ => "unused",
    evaluator := fun _ _ => ⟨fb, true, false⟩ }

/-- The initial state of a registered scenario run. -/
def c6s0 (q pdfPath : String) : GState := initialState scenarioPdf q pdfPath true

/-- The state after the first research step answered `ans`. -/
def c6s1 (ans q pdfPath : String) : GState :=
  { c6s0 q pdfPath with
    messages := (c6s0 q pdfPath).messages ++ [⟨Role.assistant, ans, false⟩] }

/-! ### C5: tool results are never folded into the document text -/

/-- Oracles for a run with one tool call: the first research call requests
a tool, the second answers; the tool returns `"TOOL RESULT DATA"`; the
evaluator then accepts. -/
def oC5 : Oracles :=
  { research := fun rc _ => if rc = 0 then ⟨"fetch the document", true⟩ else ⟨"done", false⟩,
    toolExec := fun _ _ => "TOOL RESULT DATA",
    evaluator := fun _ _ => ⟨"fine", true, false⟩ }

/-! ### C9: the error sentinel check misses extraction exceptions -/

/-- A filesystem with one missing file, one unreadable file, and readable
files everywhere else. -/
def fsC9 : String → FileRes := fun p =>
  if p = "missing.pdf" then FileRes.missing
  else if p = "broken.pdf" then FileRes.unreadable "bad file"
  else FileRes.ok scenarioPdf

/-! ## Theorems -/

theorem c1_step (fuel : Nat) (acc : List (List Char)) :
    chunkLoop c1text.toList 5 2 (fuel+1) 2 acc
      = chunkLoop c1text.toList 5 2 fuel 2 (acc ++ [['c','d']]) := rfl

theorem c1_stuck : ∀ (fuel : Nat) (acc : List (List Char)),
    chunkLoop c1text.toList 5 2 fuel 2 acc = none := by
  intro fuel
  induction fuel with
  | zero => intro acc; rfl
  | succ n ih => intro acc; rw [c1_step]; exact ih _

/-- C1: FALSE of the code.  The claim states that for every chunk size
greater than the overlap the `chunk_text` loop terminates in a bounded
number of steps with strictly increasing window start.  On the input
`"abcd efghijkl"` with `chunk_size = 5 > 2 = overlap` the loop never
terminates: the first iteration moves `start` from 0 to 2, and from
`start = 2` every iteration recomputes `end = rfind(' ', 2, 7) = 4` and
`start = 4 - 2 = 2`, so the start does not increase and the loop runs
forever (`none` for every fuel). -/
theorem C1_chunk_text_diverges :
    ∀ fuel : Nat, chunk_text fuel c1text 5 2 = none := by
  intro fuel
  show (if ((13 : Nat) : Int) ≤ 5 then some [c1text]
        else (chunkLoop c1text.toList 5 2 fuel 0 []).map (List.map String.mk)) = none
  rw [if_neg (by decide)]
  match fuel with
  | 0 => rfl
  | n+1 =>
    have h0 : chunkLoop c1text.toList 5 2 (n+1) 0 []
        = chunkLoop c1text.toList 5 2 n 2 [['a','b','c','d']] := rfl
    rw [h0, c1_stuck]
    rfl

theorem chunkLoop_eq_windows (l : List Char) (cs ov : Int) :
    ∀ (fuel : Nat) (start : Int) (acc : List (List Char)),
    chunkLoop l cs ov fuel start acc
      = (chunkLoopW l cs ov fuel start).map (fun ws => acc ++ chunksOfWindows l ws) := by
  intro fuel
  induction fuel with
  | zero => intros; rfl
  | succ n ih =>
    intro start acc
    by_cases h : start < (l.length : Int)
    · show (if start < (l.length : Int) then
          chunkLoop l cs ov n (computeEnd l cs start - ov)
            (if (pyStripChars (pySlice l start (computeEnd l cs start))).isEmpty then acc
             else acc ++ [pyStripChars (pySlice l start (computeEnd l cs start))])
        else some acc)
        = ((if start < (l.length : Int) then
            (chunkLoopW l cs ov n (computeEnd l cs start - ov)).map
              (fun ws => (start, computeEnd l cs start) :: ws)
          else some []).map (fun ws => acc ++ chunksOfWindows l ws))
      rw [if_pos h, if_pos h, ih]
      cases hw : chunkLoopW l cs ov n (computeEnd l cs start - ov) with
      | none => rfl
      | some ws =>
        simp only [Option.map_some']
        congr 1
        show (if (pyStripChars (pySlice l start (computeEnd l cs start))).isEmpty then acc
              else acc ++ [pyStripChars (pySlice l start (computeEnd l cs start))])
              ++ chunksOfWindows l ws
            = acc ++ chunksOfWindows l ((start, computeEnd l cs start) :: ws)
        unfold chunksOfWindows
        rw [List.map_cons, List.filter_cons]
        by_cases hc : (pyStripChars (pySlice l start (computeEnd l cs start))).isEmpty
        · simp [hc]
        · simp [hc, List.append_assoc]
    · show (if start < (l.length : Int) then _ else some acc)
        = ((if start < (l.length : Int) then _ else some []).map
            (fun ws => acc ++ chunksOfWindows l ws))
      rw [if_neg h, if_neg h]
      simp [chunksOfWindows]

theorem chunkLoopW_chain (l : List Char) (cs ov : Int) :
    ∀ (fuel : Nat) (start : Int) (ws : List (Int × Int)),
    chunkLoopW l cs ov fuel start = some ws →
    List.Chain' (fun a b => b.1 = a.2 - ov) ws ∧ (∀ w ∈ ws.head?, w.1 = start) := by
  intro fuel
  induction fuel with
  | zero => intro start ws h; exact absurd h (by simp [chunkLoopW])
  | succ n ih =>
    intro start ws h
    by_cases hlt : start < (l.length : Int)
    · rw [show chunkLoopW l cs ov (n+1) start
          = (chunkLoopW l cs ov n (computeEnd l cs start - ov)).map
              (fun ws => (start, computeEnd l cs start) :: ws) from by
            simp [chunkLoopW, hlt]] at h
      cases hw : chunkLoopW l cs ov n (computeEnd l cs start - ov) with
      | none => rw [hw] at h; exact absurd h (by simp)
      | some ws' =>
        rw [hw] at h
        simp only [Option.map_some', Option.some.injEq] at h
        subst h
        obtain ⟨hch, hhd⟩ := ih _ _ hw
        refine ⟨List.chain'_cons'.mpr ⟨?_, hch⟩, ?_⟩
        · intro y hy
          rw [hhd y hy]
        · intro w hw'
          simp only [List.head?_cons, Option.mem_def, Option.some.injEq] at hw'
          subst hw'
          rfl
    · rw [show chunkLoopW l cs ov (n+1) start = some [] from by simp [chunkLoopW, hlt]] at h
      cases h
      exact ⟨List.chain'_nil, by intro w hw; simp at hw⟩

/-- C4 counterexample: the claim is false as stated.  On `"aaa  bbbbb"`
(length 10, strictly longer than the chunk budget 8) with `overlap = 1`,
`chunk_text` terminates and
returns `["aaa", "bbbbb"]`: both boundary spaces are `strip`ped away, the
two chunks together hold only 8 of the 10 original characters, so no removal
of an overlap prefix from the second chunk can make the concatenation
reconstruct the text (the reconstruction would have at most 8 characters). -/
theorem C4_counterexample :
    chunk_text 10 c4text 8 1 = some ["aaa", "bbbbb"] ∧
    ¬ ∃ k : Nat, "aaa" ++ String.mk ("bbbbb".toList.drop k) = c4text := by
  refine ⟨rfl, ?_⟩
  rintro ⟨k, hk⟩
  have h := congrArg (fun s : String => s.toList.length) hk
  simp only [String.toList, String.data_append] at h
  have h5 : ("bbbbb".data.drop k).length = 5 - k := by
    rw [List.length_drop]
    rfl
  have h3 : ("aaa".data ++ (String.mk ("bbbbb".data.drop k)).data).length = 3 + (5 - k) := by
    rw [List.length_append]
    show 3 + ("bbbbb".data.drop k).length = 3 + (5 - k)
    rw [h5]
  rw [h3] at h
  have : c4text.data.length = 10 := rfl
  omega

/-- C4 (amended): for every text longer than the chunk budget on which the
loop terminates, the returned chunks are exactly the whitespace-`strip`ped
slices of a sequence of raw windows (empty results dropped) whose first
window starts at 0 and in which each next window starts exactly `overlap`
characters before the previous window's end — so the raw windows leave no
positional gap; but because the chunks are `strip`ped, concatenating them
after removing the overlap need not reconstruct the original text
(boundary whitespace is lost, see the counterexample). -/
theorem C4_chunks_are_stripped_contiguous_windows
    (fuel : Nat) (text : String) (cs ov : Int) (cks : List String) (ws : List (Int × Int))
    (hlong : cs < (text.length : Int))
    (hrun : chunk_text fuel text cs ov = some cks)
    (hwin : chunkLoopW text.toList cs ov fuel 0 = some ws) :
    cks = (chunksOfWindows text.toList ws).map String.mk ∧
    List.Chain' (fun a b => b.1 = a.2 - ov) ws ∧
    (∀ w ∈ ws.head?, w.1 = 0) := by
  unfold chunk_text at hrun
  rw [if_neg (not_le.mpr hlong)] at hrun
  rw [chunkLoop_eq_windows, hwin] at hrun
  simp only [Option.map_some', Option.some.injEq, List.nil_append] at hrun
  obtain ⟨hch, hhd⟩ := chunkLoopW_chain text.toList cs ov fuel 0 ws hwin
  exact ⟨hrun.symm, hch, hhd⟩

/-- C4 witness: the amended theorem instantiated on `"aaa  bbbbb"`,
`chunk_size = 8`, `overlap = 1`: windows `[(0,4), (3,11)]` with
`3 = 4 - 1`, chunks `["aaa", "bbbbb"]` are their stripped slices. -/
theorem C4_witness :
    (["aaa", "bbbbb"] : List String)
        = (chunksOfWindows c4text.toList [(0,4), (3,11)]).map String.mk ∧
    List.Chain' (fun a b : Int × Int => b.1 = a.2 - 1) [(0,4), (3,11)] :=
  have h := C4_chunks_are_stripped_contiguous_windows 10 c4text 8 1 ["aaa", "bbbbb"]
    [(0,4), (3,11)] (by decide) rfl rfl
  ⟨h.1, h.2.1⟩

theorem findByEmail_of_mem (db : List UserRec) (r : UserRec)
    (hpw : db.Pairwise fun a b => a.email ≠ b.email) (hr : r ∈ db) :
    findByEmail db r.email = some r := by
  induction db with
  | nil => cases hr
  | cons a t ih =>
    rcases List.mem_cons.mp hr with h | h
    · subst h
      simp [findByEmail, List.find?]
    · have hne : a.email ≠ r.email := (List.pairwise_cons.mp hpw).1 r h
      have : (a.email == r.email) = false := beq_eq_false_iff_ne.mpr hne
      simp only [findByEmail, List.find?, this]
      exact ih (List.pairwise_cons.mp hpw).2 h

theorem countSid_eq_one (sid : String) (r : UserRec) :
    ∀ db : List UserRec, db.Pairwise (fun a b => a.session_id ≠ b.session_id) →
    r ∈ db → r.session_id = sid →
    (db.filter fun u => u.session_id == sid).length = 1 := by
  intro db
  induction db with
  | nil => intro _ hr; cases hr
  | cons a t ih =>
    intro hpw hr hsid
    rcases List.mem_cons.mp hr with h | h
    · subst h
      have hnone : t.filter (fun u => u.session_id == sid) = [] := by
        refine List.filter_eq_nil_iff.mpr fun u hu => ?_
        have := (List.pairwise_cons.mp hpw).1 u hu
        rw [hsid] at this
        simp [beq_eq_false_iff_ne.mpr (Ne.symm this)]
      rw [List.filter_cons, if_pos (by simp [hsid]), hnone]
      rfl
    · have hne : a.session_id ≠ sid := by
        have := (List.pairwise_cons.mp hpw).1 r h
        rw [hsid] at this
        exact this
      rw [List.filter_cons, if_neg (by simp [hne])]
      exact ih (List.pairwise_cons.mp hpw).2 h hsid

theorem countSid_map (sid : String) (f : UserRec → UserRec)
    (hf : ∀ u, (f u).session_id = u.session_id) :
    ∀ db : List UserRec,
    ((db.map f).filter fun u => u.session_id == sid).length
      = (db.filter fun u => u.session_id == sid).length := by
  intro db
  induction db with
  | nil => rfl
  | cons a t ih =>
    rw [List.map_cons, List.filter_cons, List.filter_cons]
    by_cases h : a.session_id = sid
    · rw [if_pos (by simp [hf, h]), if_pos (by simp [h])]
      simp [ih]
    · rw [if_neg (by simp [hf, h]), if_neg (by simp [h])]
      exact ih

/-- C7 counterexample: the claim as stated is false.  A registration attempt
from session `"s2"` with the email `"a@b.co"` (bound to session `"s1"`) but
the one-character name `"x"` fails name validation first, so `register_user`
returns the name-length message, not the specific already-registered
message the claim requires for *every* such attempt. -/
theorem C7_counterexample :
    register_user c7db 1 "s2" "x" "a@b.co"
      = (c7db, false, "Name must be between 2 and 100 characters.") ∧
    ("Name must be between 2 and 100 characters."
      ≠ "This email is already registered with another session.") := by
  exact ⟨rfl, by decide⟩

/-- C7 (amended): for every registration attempt whose (trimmed) name and
(trimmed, lowercased) email pass validation and whose email is already bound
to a record of a *different* session id, `register_user` returns failure
with the specific already-registered message and leaves the table
completely unchanged. -/
theorem C7_conflicting_email_rejected
    (db : List UserRec) (now : Nat) (sid n e : String) (r : UserRec)
    (hn : validate_name (pyStrip n) = true)
    (hv : validate_email (pyLower (pyStrip e)) = true)
    (hfind : findByEmail db (pyLower (pyStrip e)) = some r)
    (hne : r.session_id ≠ sid) :
    register_user db now sid n e
      = (db, false, "This email is already registered with another session.") := by
  simp [register_user, hn, hv, hfind, beq_eq_false_iff_ne.mpr hne]

/-- C7 witness: session `"s2"` tries to register the valid name `"Bob"`
with `"a@b.co"`, which `c7db` binds to session `"s1"`. -/
theorem C7_witness :
    register_user c7db 5 "s2" "Bob" "a@b.co"
      = (c7db, false, "This email is already registered with another session.") :=
  C7_conflicting_email_rejected c7db 5 "s2" "Bob" "a@b.co"
    ⟨"s1", "Alice", "a@b.co", 0, true⟩ (by decide) (by decide) rfl (by decide)

/-- C8: CONFIRMED.  Re-registering from the same session id with the same
(normalized) email and a new valid name takes the `UPDATE` branch: the
result is the same table with that session's record updated in place (new
name, new registration timestamp, email untouched, no row added), it
reports success with the update message, and the table still contains
exactly one record for that session id.  `DBWF` packages the schema
constraints (`PRIMARY KEY`, `UNIQUE`, emails inserted through validation)
under which the store operates. -/
theorem C8_register_same_session_updates
    (db : List UserRec) (now : Nat) (sid n e : String) (r : UserRec)
    (hwf : DBWF db) (hr : r ∈ db) (hsid : r.session_id = sid)
    (he : pyLower (pyStrip e) = r.email)
    (hn : validate_name (pyStrip n) = true) :
    register_user db now sid n e
      = (db.map fun u =>
          if u.session_id == sid then { u with name := pyStrip n, registered_at := now }
          else u,
         true, "User information updated successfully.") ∧
    (((register_user db now sid n e).1.filter fun u => u.session_id == sid).length = 1) := by
  have hv : validate_email (pyLower (pyStrip e)) = true := by
    rw [he]; exact hwf.1 r hr
  have hpwE : db.Pairwise fun a b => a.email ≠ b.email := hwf.2.imp fun h => h.2
  have hfind : findByEmail db (pyLower (pyStrip e)) = some r := by
    rw [he]; exact findByEmail_of_mem db r hpwE hr
  have hbeq : (r.session_id == sid) = true := by simp [hsid]
  have hmain : register_user db now sid n e
      = (db.map fun u =>
          if u.session_id == sid then { u with name := pyStrip n, registered_at := now }
          else u,
         true, "User information updated successfully.") := by
    simp [register_user, hn, hv, hfind, hbeq]
  refine ⟨hmain, ?_⟩
  rw [hmain]
  show ((db.map fun u =>
      if u.session_id == sid then { u with name := pyStrip n, registered_at := now }
      else u).filter fun u => u.session_id == sid).length = 1
  rw [countSid_map sid _ (fun u => by
    by_cases h : (u.session_id == sid) = true <;> simp [h])]
  exact countSid_eq_one sid r db (hwf.2.imp fun h => h.1) hr hsid

/-- C8 witness: session `"s1"` re-registers its email (in different letter
case, exercising the normalization) with the new name `"Alice Cooper"`. -/
theorem C8_witness :
    register_user c7db 7 "s1" "Alice Cooper" "A@B.co"
      = (c7db.map fun u =>
          if u.session_id == "s1" then
            { u with name := pyStrip "Alice Cooper", registered_at := 7 }
          else u,
         true, "User information updated successfully.") ∧
    (((register_user c7db 7 "s1" "Alice Cooper" "A@B.co").1.filter
        fun u => u.session_id == "s1").length = 1) :=
  C8_register_same_session_updates c7db 7 "s1" "Alice Cooper" "A@B.co"
    ⟨"s1", "Alice", "a@b.co", 0, true⟩ ⟨by decide, by decide⟩ (by decide) rfl rfl (by decide)

/-- C10: CONFIRMED.  A session that is already registered (so its session id
is a stored primary key) calling `register_user` with a *different* valid
email that no record holds passes both validations and the email lookup
(`findByEmail` misses), reaches the `INSERT`, which collides with the
`session_id` primary key and raises `IntegrityError`; the handler returns
`(False, "This email is already registered.")` and the table — in
particular the caller's stored name and email — is unchanged. -/
theorem C10_same_session_new_email_rejected
    (db : List UserRec) (now : Nat) (sid n e2 : String) (r : UserRec)
    (hr : r ∈ db) (hsid : r.session_id = sid)
    (hn : validate_name (pyStrip n) = true)
    (hv : validate_email (pyLower (pyStrip e2)) = true)
    (hfind : findByEmail db (pyLower (pyStrip e2)) = none) :
    register_user db now sid n e2 = (db, false, "This email is already registered.") := by
  have hany : (db.any fun u => u.session_id == sid || u.email == pyLower (pyStrip e2)) = true :=
    List.any_eq_true.mpr ⟨r, hr, by simp [hsid]⟩
  simp [register_user, hn, hv, hfind, hany]

/-- C10 witness: session `"s1"` (registered with `a@b.co`) attempts
`new@x.io`, which nobody holds. -/
theorem C10_witness :
    register_user c7db 9 "s1" "Alice" "new@x.io"
      = (c7db, false, "This email is already registered.") :=
  C10_same_session_new_email_rejected c7db 9 "s1" "Alice" "new@x.io"
    ⟨"s1", "Alice", "a@b.co", 0, true⟩ (by decide) rfl (by decide) (by decide) rfl

/-! ## String-containment helper lemmas -/

theorem toList_append (a b : String) : (a ++ b).toList = a.toList ++ b.toList :=
  String.data_append a b

theorem strContains_of_infix (s pat : String) (h : pat.toList <:+: s.toList) :
    strContains s pat = true := by
  obtain ⟨x, y, hxy⟩ := h
  refine List.any_eq_true.mpr ⟨x.length, List.mem_range.mpr ?_, ?_⟩
  · have := congrArg List.length hxy
    simp only [List.length_append] at this
    omega
  · have hdrop : s.toList.drop x.length = pat.toList ++ y := by
      rw [← hxy, List.append_assoc, List.drop_left]
    rw [hdrop]
    exact List.isPrefixOf_iff_prefix.mpr (List.prefix_append _ _)

theorem strContains_mid (x f y : String) : strContains (x ++ f ++ y) f = true := by
  refine strContains_of_infix _ _ ?_
  rw [toList_append, toList_append]
  exact List.infix_append _ _ _

theorem strContains_empty (s : String) : strContains s "" = true := by
  refine List.any_eq_true.mpr ⟨0, List.mem_range.mpr (Nat.succ_pos _), ?_⟩
  exact List.isPrefixOf_iff_prefix.mpr List.nil_prefix

theorem fullPrompt_contains_feedback (s : GState) (f : String)
    (hf : s.feedback_on_work = some f) :
    strContains (fullPrompt s) f = true := by
  by_cases h0 : f = ""
  · subst h0; exact strContains_empty _
  · have hfc : feedback_context s = fcPre ++ f ++ fcPost := by
      simp [feedback_context, hf, h0]
    have hshape : fullPrompt s
        = (fp1 ++ s.success_criteria ++ fcPre) ++ f
          ++ (fcPost ++ fp2 ++ s.pdf_content ++ fp3 ++ s.question ++ fp4) := by
      rw [fullPrompt, hfc]
      simp [String.append_assoc]
    rw [hshape]
    exact strContains_mid _ _ _

theorem chunkedPrompt_contains_feedback (s : GState) (c0 c1 f : String)
    (hf : s.feedback_on_work = some f) :
    strContains (chunkedPrompt s c0 c1) f = true := by
  by_cases h0 : f = ""
  · subst h0; exact strContains_empty _
  · have hfc : feedback_context s = fcPre ++ f ++ fcPost := by
      simp [feedback_context, hf, h0]
    have hshape : chunkedPrompt s c0 c1
        = (cp1 ++ c0 ++ cp2 ++ c1 ++ cp3 ++ s.success_criteria ++ fcPre) ++ f
          ++ (fcPost ++ cp4 ++ s.question ++ cp5) := by
      rw [chunkedPrompt, hfc]
      simp [String.append_assoc]
    rw [hshape]
    exact strContains_mid _ _ _

/-! ### C3: the evaluation router and the feedback carried into the next prompt -/

/-- C3: CONFIRMED.  After an evaluator step (state `evaluatorApply out s`
for the model's structured output `out`), `evaluation_router` sends the run
to `END` exactly when the met-flag or the needs-input-flag of that output
is true, and back to `"researcher"` otherwise; and in the latter situation
any prompt the next `research_node` invocation constructs (either the
full-document or the chunked one — whenever it reaches a model call at
all, i.e. the state is registered and has document text) contains the
evaluator's feedback text `out.feedback` verbatim as a substring. -/
theorem C3_evaluation_router_and_feedback (s : GState) (out : EvaluatorOutput) :
    (evaluation_router (evaluatorApply out s) = ENDnode
      ↔ (out.success_criteria_met || out.user_input_needed) = true) ∧
    ((out.success_criteria_met || out.user_input_needed) = false →
      evaluation_router (evaluatorApply out s) = "researcher") ∧
    (∀ p, research_node (evaluatorApply out s) = ResearchAction.callModel p →
      strContains p out.feedback = true) := by
  refine ⟨?_, ?_, ?_⟩
  · by_cases hb : (out.success_criteria_met || out.user_input_needed) = true
    · simp [evaluation_router, evaluatorApply, hb]
    · simp only [Bool.not_eq_true] at hb
      simp [evaluation_router, evaluatorApply, hb, ENDnode]
  · intro hb
    simp [evaluation_router, evaluatorApply, hb]
  · intro p hcall
    have hfb : (evaluatorApply out s).feedback_on_work = some out.feedback := rfl
    unfold research_node at hcall
    by_cases hreg : (!(evaluatorApply out s).user_registered) = true
    · rw [if_pos hreg] at hcall
      cases hcall
    · rw [if_neg hreg] at hcall
      by_cases hpdf : (evaluatorApply out s).pdf_content = ""
      · rw [if_pos hpdf] at hcall
        cases hcall
      · rw [if_neg hpdf] at hcall
        by_cases hlen : ((evaluatorApply out s).pdf_content.length : Int) ≤ MAX_CHUNK_SIZE
        · rw [if_pos hlen] at hcall
          cases hcall
          exact fullPrompt_contains_feedback _ _ hfb
        · rw [if_neg hlen] at hcall
          cases hck : chunk_text ((evaluatorApply out s).pdf_content.length + 203)
              (evaluatorApply out s).pdf_content MAX_CHUNK_SIZE OVERLAP_SIZE with
          | none => rw [hck] at hcall; cases hcall
          | some cks =>
            rw [hck] at hcall
            cases hcall
            exact chunkedPrompt_contains_feedback _ _ _ _ hfb

/-- C3 witness: a concrete registered state with document text after an
evaluator step that rejects (`met = false`, `needs-input = false`) with
feedback `"cite the Results section"`: the router loops back to the
researcher and the constructed full-document prompt contains the feedback
verbatim. -/
theorem C3_witness :
    (evaluation_router (evaluatorApply ⟨"cite the Results section", false, false⟩
        (initialState "Paper about X. Results: 42%." "What is the result?" "p.pdf" true))
      = "researcher") ∧
    strContains
      (fullPrompt (evaluatorApply ⟨"cite the Results section", false, false⟩
        (initialState "Paper about X. Results: 42%." "What is the result?" "p.pdf" true)))
      "cite the Results section" = true := by
  have h := C3_evaluation_router_and_feedback
    (initialState "Paper about X. Results: 42%." "What is the result?" "p.pdf" true)
    ⟨"cite the Results section", false, false⟩
  refine ⟨h.2.1 rfl, h.2.2 _ ?_⟩
  rfl

theorem ann_startsWith_tag (fb : String) :
    pyStartsWith (evalTagSp ++ fb) evalTag = true := by
  unfold pyStartsWith
  refine List.isPrefixOf_iff_prefix.mpr ⟨(" " ++ fb).toList, ?_⟩
  rw [← toList_append, ← String.append_assoc]
  rfl

theorem ann_not_substantive (fb : String) : isSubstantive (annMsg fb) = false := by
  unfold isSubstantive annMsg
  simp [ann_startsWith_tag fb]

theorem finalAnswer_warn_ann (pre : List Msg) (fb : String) :
    finalAnswer (pre ++ [warnMsg, annMsg fb]) = registerWarning := by
  have h2 : findAnswer (annMsg fb :: warnMsg :: pre.reverse) = some registerWarning := by
    show (if isSubstantive (annMsg fb) = true then some (annMsg fb).content
          else findAnswer (warnMsg :: pre.reverse)) = some registerWarning
    rw [if_neg (by rw [ann_not_substantive fb]; exact Bool.false_ne_true)]
    show (if isSubstantive warnMsg = true then some warnMsg.content
          else findAnswer pre.reverse) = some registerWarning
    rw [if_pos (show isSubstantive warnMsg = true from rfl)]
    rfl
  unfold finalAnswer
  rw [List.reverse_append]
  have h1 : ([warnMsg, annMsg fb] : List Msg).reverse ++ pre.reverse
      = annMsg fb :: warnMsg :: pre.reverse := rfl
  rw [h1, h2]

theorem runGraphAux_researcher_unreg (o : Oracles) (n : Nat) (s : GState)
    (rc tc ec : Nat) (hreg : s.user_registered = false) :
    runGraphAux o (n+1) Node.researcher s rc tc ec
      = runGraphAux o n Node.evaluator
          { s with messages := s.messages ++ [warnMsg] } rc tc ec := by
  have hr : research_node s = ResearchAction.warnRegister := by
    simp [research_node, hreg]
  have hrt : research_router { s with messages := s.messages ++ [warnMsg] } = "evaluator" := by
    simp [research_router, lastMsg, List.getLastD_concat, warnMsg]
  show (match research_node s with
    | ResearchAction.warnRegister =>
      if research_router { s with messages := s.messages ++ [warnMsg] } = "tools" then
        runGraphAux o n Node.tools { s with messages := s.messages ++ [warnMsg] } rc tc ec
      else runGraphAux o n Node.evaluator { s with messages := s.messages ++ [warnMsg] } rc tc ec
    | ResearchAction.warnNoPdf =>
      if research_router { s with messages := s.messages ++ [⟨Role.assistant, extractPdfFirst, false⟩] } = "tools" then
        runGraphAux o n Node.tools { s with messages := s.messages ++ [⟨Role.assistant, extractPdfFirst, false⟩] } rc tc ec
      else runGraphAux o n Node.evaluator { s with messages := s.messages ++ [⟨Role.assistant, extractPdfFirst, false⟩] } rc tc ec
    | ResearchAction.callModel p =>
      (if research_router { s with messages := s.messages ++ [⟨Role.assistant, (o.research rc p).content, (o.research rc p).hasToolCalls⟩] } = "tools" then
        runGraphAux o n Node.tools { s with messages := s.messages ++ [⟨Role.assistant, (o.research rc p).content, (o.research rc p).hasToolCalls⟩] } (rc+1) tc ec
       else runGraphAux o n Node.evaluator { s with messages := s.messages ++ [⟨Role.assistant, (o.research rc p).content, (o.research rc p).hasToolCalls⟩] } (rc+1) tc ec).map
        fun r => (r.1, Call.research p :: r.2)
    | ResearchAction.chunkDiverge => none)
    = runGraphAux o n Node.evaluator { s with messages := s.messages ++ [warnMsg] } rc tc ec
  rw [hr, hrt]
  simp

theorem runGraphAux_evaluator_step (o : Oracles) (n : Nat) (s : GState) (rc tc ec : Nat) :
    runGraphAux o (n+1) Node.evaluator s rc tc ec
      = (if evaluation_router (evaluatorApply (o.evaluator ec (evalUserMessage s)) s) = ENDnode
         then some (evaluatorApply (o.evaluator ec (evalUserMessage s)) s,
                    [Call.evaluator (evalUserMessage s)])
         else (runGraphAux o n Node.researcher
                 (evaluatorApply (o.evaluator ec (evalUserMessage s)) s) rc tc (ec+1)).map
           fun r => (r.1, Call.evaluator (evalUserMessage s) :: r.2)) := rfl

theorem unregistered_run (o : Oracles) :
    ∀ fuel : Nat,
      (∀ s rc tc ec res, s.user_registered = false →
        runGraphAux o fuel Node.researcher s rc tc ec = some res →
        countResearch res.2 = 0 ∧ ∃ pre fb, res.1.messages = pre ++ [warnMsg, annMsg fb]) ∧
      (∀ s rc tc ec res, s.user_registered = false →
        (∃ pre, s.messages = pre ++ [warnMsg]) →
        runGraphAux o fuel Node.evaluator s rc tc ec = some res →
        countResearch res.2 = 0 ∧ ∃ pre fb, res.1.messages = pre ++ [warnMsg, annMsg fb]) := by
  intro fuel
  induction fuel with
  | zero =>
    constructor
    · intro s rc tc ec res _ h
      exact absurd h (by simp [runGraphAux])
    · intro s rc tc ec res _ _ h
      exact absurd h (by simp [runGraphAux])
  | succ n ih =>
    refine ⟨?_, ?_⟩
    · intro s rc tc ec res hreg hrun
      rw [runGraphAux_researcher_unreg o n s rc tc ec hreg] at hrun
      exact ih.2 { s with messages := s.messages ++ [warnMsg] } rc tc ec res hreg
        ⟨s.messages, rfl⟩ hrun
    · intro s rc tc ec res hreg hwarn hrun
      obtain ⟨pre0, hpre0⟩ := hwarn
      rw [runGraphAux_evaluator_step] at hrun
      by_cases hend :
          evaluation_router (evaluatorApply (o.evaluator ec (evalUserMessage s)) s) = ENDnode
      · rw [if_pos hend] at hrun
        cases hrun
        refine ⟨rfl, pre0, (o.evaluator ec (evalUserMessage s)).feedback, ?_⟩
        show s.messages ++ [annMsg (o.evaluator ec (evalUserMessage s)).feedback]
          = pre0 ++ [warnMsg, annMsg (o.evaluator ec (evalUserMessage s)).feedback]
        rw [hpre0, List.append_assoc]
        rfl
      · rw [if_neg hend] at hrun
        obtain ⟨r', hr', hres⟩ := Option.map_eq_some'.mp hrun
        obtain ⟨hc, pre, fb, hm⟩ :=
          ih.1 (evaluatorApply (o.evaluator ec (evalUserMessage s)) s) rc tc (ec+1) r' hreg hr'
        subst hres
        refine ⟨?_, pre, fb, hm⟩
        show countResearch (Call.evaluator (evalUserMessage s) :: r'.2) = 0
        simpa [countResearch, List.filter_cons, isResearchCall] using hc

/-- C2 (amended): for every oracle assignment and every state with the
registration flag false, any terminating control-loop run makes NO research
model call (`countResearch = 0`) and its externally visible outcome is the
fixed registration warning; however — unlike the claim as stated — the
evaluator model IS invoked: the warning routes to the evaluator node (see
the counterexample for a run with exactly one evaluator call). -/
theorem C2_unregistered_no_research_call (o : Oracles) (fuel : Nat) (s : GState)
    (res : GState × List Call)
    (hreg : s.user_registered = false)
    (hrun : runGraph o fuel s = some res) :
    countResearch res.2 = 0 ∧ finalAnswer res.1.messages = registerWarning := by
  obtain ⟨hc, pre, fb, hm⟩ := (unregistered_run o fuel).1 s 0 0 0 res hreg hrun
  exact ⟨hc, by rw [hm]; exact finalAnswer_warn_ann pre fb⟩

/-- Generalization of the final-answer extraction: when the final messages
end in a substantive message followed by one evaluation annotation, the
visible result is that substantive message's content. -/
theorem finalAnswer_substantive_ann (pre : List Msg) (m : Msg) (fb : String)
    (hm : isSubstantive m = true) :
    finalAnswer (pre ++ [m, annMsg fb]) = m.content := by
  have h2 : findAnswer (annMsg fb :: m :: pre.reverse) = some m.content := by
    show (if isSubstantive (annMsg fb) = true then some (annMsg fb).content
          else findAnswer (m :: pre.reverse)) = some m.content
    rw [if_neg (by rw [ann_not_substantive fb]; exact Bool.false_ne_true)]
    show (if isSubstantive m = true then some m.content
          else findAnswer pre.reverse) = some m.content
    rw [if_pos hm]
  unfold finalAnswer
  rw [List.reverse_append]
  have h1 : ([m, annMsg fb] : List Msg).reverse ++ pre.reverse
      = annMsg fb :: m :: pre.reverse := rfl
  rw [h1, h2]

/-- C2 counterexample: the claim as stated is false.  Running the spec's
scenario (document `"Paper about X. Results: 42%."`, question
`"What is the result?"`) with an unregistered session does yield the fixed
registration warning as the visible outcome and performs no research-model
call — but it performs ONE evaluator-model call, because `research_router`
sends the warning message to the evaluator node, contradicting "performs no
external model call at all (neither the research model nor the evaluator
model is invoked)". -/
theorem C2_counterexample :
    (process_question_trace fsScenario oAccept 5 "paper.pdf" scenarioQuestion false).map
        (fun r => (r.1, countResearch r.2, countEval r.2))
      = some (registerWarning, 0, 1) := rfl

/-- C2 witness: the amended theorem applied to the concrete unregistered
scenario run. -/
theorem C2_witness :
    countResearch c2res.2 = 0 ∧ finalAnswer c2res.1.messages = registerWarning :=
  C2_unregistered_no_research_call oAccept 5
    (initialState scenarioPdf scenarioQuestion "paper.pdf" false) c2res rfl rfl

theorem c6_researcher_step (ans fb q pdfPath : String) :
    runGraphAux (oFirstPass ans fb) 5 Node.researcher (c6s0 q pdfPath) 0 0 0
      = (if research_router (c6s1 ans q pdfPath) = "tools"
         then runGraphAux (oFirstPass ans fb) 4 Node.tools (c6s1 ans q pdfPath) 1 0 0
         else runGraphAux (oFirstPass ans fb) 4 Node.evaluator (c6s1 ans q pdfPath) 1 0 0).map
          (fun r => (r.1, Call.research (fullPrompt (c6s0 q pdfPath)) :: r.2)) := rfl

theorem c6_evaluator_step (ans fb q pdfPath : String) :
    runGraphAux (oFirstPass ans fb) 4 Node.evaluator (c6s1 ans q pdfPath) 1 0 0
      = some (evaluatorApply ⟨fb, true, false⟩ (c6s1 ans q pdfPath),
              [Call.evaluator (evalUserMessage (c6s1 ans q pdfPath))]) := by
  rw [runGraphAux_evaluator_step]
  rw [if_pos (show evaluation_router
      (evaluatorApply ((oFirstPass ans fb).evaluator 0 (evalUserMessage (c6s1 ans q pdfPath)))
        (c6s1 ans q pdfPath)) = ENDnode from rfl)]
  rfl

theorem c6_run (ans fb q pdfPath : String) :
    runGraph (oFirstPass ans fb) 5 (c6s0 q pdfPath)
      = some (evaluatorApply ⟨fb, true, false⟩ (c6s1 ans q pdfPath),
              [Call.research (fullPrompt (c6s0 q pdfPath)),
               Call.evaluator (evalUserMessage (c6s1 ans q pdfPath))]) := by
  have hr : research_router (c6s1 ans q pdfPath) = "evaluator" := rfl
  show runGraphAux (oFirstPass ans fb) 5 Node.researcher (c6s0 q pdfPath) 0 0 0 = _
  rw [c6_researcher_step, if_neg (by rw [hr]; decide), c6_evaluator_step]
  rfl

/-- C6 (amended): when the research model's first-pass answer `ans` is
nonempty and does not itself start with the evaluation tag, and the
evaluator marks the met-flag true on that first pass, `process_question`
returns exactly `ans`, with exactly one research call and one evaluator
call (no further loop iterations).  The amendment relative to the claim:
the code's selection requires the assistant message to have NONEMPTY
content in addition to not starting with the evaluation prefix, and falls
back to the very last message (an evaluation annotation) when no message
qualifies — see the counterexample with an empty answer. -/
theorem C6_first_pass_met (ans fb q pdfPath : String)
    (hans : ans ≠ "") (htag : pyStartsWith ans evalTag = false) :
    (process_question_trace fsScenario (oFirstPass ans fb) 5 pdfPath q true).map
        (fun r => (r.1, countResearch r.2, countEval r.2))
      = some (ans, 1, 1) := by
  have hsub : isSubstantive ⟨Role.assistant, ans, false⟩ = true := by
    simp [isSubstantive, htag, hans]
  have hfa : finalAnswer (evaluatorApply ⟨fb, true, false⟩ (c6s1 ans q pdfPath)).messages
      = ans := by
    show finalAnswer ([⟨Role.human, "Analyze PDF: " ++ pdfPath, false⟩]
        ++ [⟨Role.assistant, ans, false⟩, annMsg fb]) = ans
    exact finalAnswer_substantive_ann _ _ fb hsub
  show (process_question_trace fsScenario (oFirstPass ans fb) 5 pdfPath q true).map
      (fun r => (r.1, countResearch r.2, countEval r.2)) = some (ans, 1, 1)
  unfold process_question_trace
  have he : extract_pdf_text fsScenario pdfPath = scenarioPdf := rfl
  rw [he, if_neg (show ¬ strContains scenarioPdf "Error:" = true by decide)]
  rw [show initialState scenarioPdf q pdfPath true = c6s0 q pdfPath from rfl]
  rw [c6_run]
  simp only [Option.map_some']
  rw [hfa]
  rfl

/-- C6 witness: the spec's scenario — answer `"42%, per the Results
section"`, evaluator accepts on the first pass — yields exactly that
answer with one research and one evaluator call. -/
theorem C6_witness :
    (process_question_trace fsScenario
        (oFirstPass "42%, per the Results section" "Accurate and grounded") 5
        "paper.pdf" scenarioQuestion true).map
        (fun r => (r.1, countResearch r.2, countEval r.2))
      = some ("42%, per the Results section", 1, 1) :=
  C6_first_pass_met "42%, per the Results section" "Accurate and grounded"
    scenarioQuestion "paper.pdf" (by decide) (by decide)

/-- C6 counterexample: the claim as stated is false.  If the research
model's answer has empty content (legal for an LLM reply), the most recent
assistant message that is not an evaluation annotation is that empty
message, so the claim's selection rule says the result is `""`; but the
code skips empty-content messages and falls back to
`result["messages"][-1].content`, returning the evaluation annotation
`"🔍 Evaluation: ok"` itself. -/
theorem C6_counterexample :
    process_question fsScenario (oFirstPass "" "ok") 5 "paper.pdf" scenarioQuestion true
      = some (evalTagSp ++ "ok") ∧
    ((runGraph (oFirstPass "" "ok") 5
        (initialState scenarioPdf scenarioQuestion "paper.pdf" true)).map
        (fun r => r.1.messages))
      = some [⟨Role.human, "Analyze PDF: paper.pdf", false⟩,
              ⟨Role.assistant, "", false⟩,
              ⟨Role.assistant, evalTagSp ++ "ok", false⟩] ∧
    (evalTagSp ++ "ok" : String) ≠ "" := by
  refine ⟨rfl, rfl, by decide⟩

/-- C5: the claim is false of the compiled graph — a CODE BUG.  In a run
where the research step requests a tool call and the tool output
`"TOOL RESULT DATA"` passes the `tool_handler` heuristic (nonempty, does
not contain `"pdf_content"`), the document-text field after the run is
still the original `"ORIGINAL DOC"`: `build_graph` wires the vendor
`ToolNode` (which only appends a tool message) into the graph and never
registers `tool_handler`, so the folding logic is dead code.  The second
and third conjuncts show `tool_handler`, applied to the exact state
reached after the tool executed, WOULD have set the document text.  The
loop does return to the research step after the tool (the `"done"` answer
follows the tool message). -/
theorem C5_tool_result_never_folded :
    ((runGraph oC5 6 (initialState "ORIGINAL DOC" "Q" "p.pdf" true)).map
        (fun r => (r.1.pdf_content, r.1.messages.map Msg.content)))
      = some ("ORIGINAL DOC",
          ["Analyze PDF: p.pdf", "fetch the document", "TOOL RESULT DATA", "done",
           evalTagSp ++ "fine"]) ∧
    tool_handler { initialState "ORIGINAL DOC" "Q" "p.pdf" true with
        messages := (initialState "ORIGINAL DOC" "Q" "p.pdf" true).messages
          ++ [⟨Role.assistant, "fetch the document", true⟩,
              ⟨Role.tool, "TOOL RESULT DATA", false⟩] }
      = ToolHandlerResult.setPdf "TOOL RESULT DATA" ∧
    ("TOOL RESULT DATA" : String) ≠ "ORIGINAL DOC" := by
  refine ⟨rfl, rfl, by decide⟩

/-- C9: the claim is false of the code — a CODE BUG.  For a missing path,
`extract_pdf_text` returns `"Error: File missing.pdf not found"`, the
`"Error:" in pdf_content` sentinel check fires, and `process_question`
returns the error string with NO model call (last two conjuncts).  But for
an unreadable file the error string is `"Error extracting PDF: bad file"`,
which does NOT contain `"Error:"` (no colon directly after `Error`), so the
sentinel check misses it: the graph runs with the error text as the
document and the research model IS invoked (third conjunct: the run
answers `"the answer"` with one research call). -/
theorem C9_unreadable_error_not_caught :
    extract_pdf_text fsC9 "broken.pdf" = "Error extracting PDF: bad file" ∧
    strContains "Error extracting PDF: bad file" "Error:" = false ∧
    (process_question_trace fsC9 (oFirstPass "the answer" "ok") 5 "broken.pdf" "Q" true).map
        (fun r => (r.1, countResearch r.2))
      = some ("the answer", 1) ∧
    extract_pdf_text fsC9 "missing.pdf" = "Error: File missing.pdf not found" ∧
    process_question_trace fsC9 (oFirstPass "the answer" "ok") 5 "missing.pdf" "Q" true
      = some ("Error: File missing.pdf not found", []) := by
  refine ⟨rfl, by decide, rfl, rfl, rfl⟩
